import Mathlib

/-!
# Verification of the AiCourseBuilder backend (src/backend/server.py)

Shallow embedding of the FastAPI backend in `src/backend/server.py`.

Modelling conventions:
* MongoDB collections (`users`, `courses`, `quiz_results`) become lists in a
  `DB` record; `insert_one` appends, `find_one` is `List.find?` (first match in
  insertion order), `find` is `List.filter`.
* Generated identifiers (`uuid.uuid4()`) and timestamps (`datetime.now`) are
  nondeterministic in the source; they are threaded as explicit parameters
  (`newId`, `now`), so each handler is a pure function of its inputs.
* A JWT is modelled as a payload plus a signature string; `jwt.encode`'s
  HMAC over the payload is modelled by the injective-by-construction function
  `jwtSign`, and `jwt.decode` checks the signature and the `exp` claim,
  returning `none` (the `InvalidTokenError` path) on any mismatch.
* `datetime.isoformat` / `datetime.fromisoformat` form an inverse pair on the
  timezone-aware datetimes the server produces, so the serialisation of
  `created_at` / `submitted_at` on the way to MongoDB is modelled as the
  identity on the `Nat` timestamp.
* The LLM call in `generate_course_with_llm` is a capability boundary: the
  response text is a parameter, and `json.loads` is a parameter
  `parse : String → Option Json` over the `Json` value type below.
* `HTTPException(status_code, detail)` becomes the `HTTPException` structure;
  handlers return `Except HTTPException α` together with the post-state `DB`.
* Python floats in the percentage computation are modelled as `Rat`, with
  `round(x, 2)` modelled as rounding to the nearest hundredth.
-/

namespace AiCourseBuilder

/-! ## Data model (the Pydantic models) -/

/-- Model of `Video` (server.py line 64). -/
structure Video where
  title : String
  url : String
  thumbnail : Option String
deriving DecidableEq, Repr

/-- Model of `Lesson` (server.py line 69); the `id` default factory is threaded explicitly. -/
structure Lesson where
  id : String
  title : String
  content : String
  videos : List Video
  code_examples : Option String
deriving DecidableEq, Repr

/-- Model of `Quiz` (server.py line 76). -/
structure Quiz where
  id : String
  question : String
  options : List String
  correct_answer : String
  explanation : Option String
deriving DecidableEq, Repr

/-- Model of `Course` (server.py line 83); `created_at` is a `Nat` timestamp. -/
structure Course where
  id : String
  user_id : String
  topic : String
  title : String
  description : String
  lessons : List Lesson
  quizzes : List Quiz
  created_at : Nat
  completion_status : String := "not_started"
deriving DecidableEq, Repr

/-- Model of `User` (server.py line 48). -/
structure UserDoc where
  id : String
  username : String
  email : String
  password_hash : Option String
  created_at : Nat
deriving DecidableEq, Repr

/-- Model of `UserCreate` (server.py line 55). -/
structure UserCreate where
  username : String
  email : String
  password : String
deriving DecidableEq, Repr

/-- Model of `QuizSubmission` (server.py line 97): note it carries a `user_id` field. -/
structure QuizSubmission where
  course_id : String
  user_id : String
  answers : List String
deriving DecidableEq, Repr

/-- Model of `QuizResult` (server.py line 102). -/
structure QuizResult where
  id : String
  user_id : String
  course_id : String
  score : Nat
  total_questions : Nat
  answers : List String
  correct_answers : List String
  submitted_at : Nat
deriving DecidableEq, Repr

/-- Model of `fastapi.HTTPException`: a status code and a detail message. -/
structure HTTPException where
  status_code : Nat
  detail : String
deriving DecidableEq, Repr

/-- The three MongoDB collections used by the server. -/
structure DB where
  users : List UserDoc
  courses : List Course
  quiz_results : List QuizResult
deriving DecidableEq, Repr

/-! ## Authentication helpers (server.py lines 113-135) -/

/-- Model of `bcrypt.hashpw(password, gensalt())` (server.py line 113): a salted
one-way hash, with the salt threaded explicitly. -/
def hash_password (salt password : String) : String :=
  "bcrypt$" ++ salt ++ "$" ++ password

/-- JWT payload: the dict `{'user_id': ..., 'exp': ...}` built by `create_token`. -/
structure TokenPayload where
  user_id : String
  exp : Nat
deriving DecidableEq, Repr

/-- Model of the HMAC-SHA256 signature `jwt.encode` computes over the payload
with the shared secret. Injectivity in the payload (for a fixed secret) stands
in for unforgeability. -/
def jwtSign (secret : String) (p : TokenPayload) : String :=
  secret ++ "." ++ toString p.exp ++ "." ++ p.user_id

/-- A JWT: payload plus signature. A tampered token is one whose signature does
not match `jwtSign secret payload`. -/
structure Token where
  payload : TokenPayload
  signature : String
deriving DecidableEq, Repr

/-- Model of `create_token` (server.py line 119): payload `{user_id, exp := now + 86400}`,
signed with the shared secret. -/
def create_token (secret : String) (now : Nat) (user_id : String) : Token :=
  { payload := { user_id := user_id, exp := now + 86400 },
    signature := jwtSign secret { user_id := user_id, exp := now + 86400 } }

/-- Model of `jwt.decode(token, secret, algorithms=[...])`: verifies the signature and the
`exp` claim; any failure raises `InvalidTokenError`, modelled as `none`. -/
def jwtDecode (secret : String) (now : Nat) (tok : Token) : Option TokenPayload :=
  if tok.signature = jwtSign secret tok.payload ∧ now < tok.payload.exp then
    some tok.payload
  else
    none

/-- Model of `get_current_user` (server.py line 126): `none` for a missing credential,
`payload.get('user_id')` on a successfully decoded token, `none` on
`InvalidTokenError`. -/
def get_current_user (secret : String) (now : Nat) (credentials : Option Token) :
    Option String :=
  match credentials with
  | none => none
  | some tok => (jwtDecode secret now tok).map TokenPayload.user_id

/-! ## Quiz scoring (server.py lines 392-411) -/

/-- The generator-sum
`sum(1 for i, answer in enumerate(submission.answers)
     if i < len(correct_answers) and answer == correct_answers[i])`
as a recursion over the submitted answers carrying the running index `i`. -/
def quizScoreAux (correct_answers : List String) : Nat → List String → Nat
  | _, [] => 0
  | i, answer :: rest =>
    (if i < correct_answers.length ∧ answer = correct_answers.getD i "" then 1 else 0)
      + quizScoreAux correct_answers (i + 1) rest

/-- Model of `score` as computed at server.py line 393. -/
def quizScore (correct_answers answers : List String) : Nat :=
  quizScoreAux correct_answers 0 answers

/-- Python `round(q, 2)`: round to the nearest hundredth (the source rounds a
float; ties do not arise in the claims considered here). -/
def round2 (q : Rat) : Rat :=
  ((⌊q * 100 + 1 / 2⌋ : Int) : Rat) / 100

/-- The percentage expression at server.py line 411:
`round((score / len(correct_answers)) * 100, 2) if correct_answers else 0`. -/
def percentageOf (score : Nat) (correct_answers : List String) : Rat :=
  if correct_answers.isEmpty then 0
  else round2 ((score : Rat) / (correct_answers.length : Rat) * 100)

/-- Spec-side characterisation of the score: the number of indices `i` below
both lengths at which the submitted answer equals the correct answer. -/
def specMatchCount (correct_answers answers : List String) : Nat :=
  (List.range (min answers.length correct_answers.length)).countP
    (fun i => decide (answers.getD i "" = correct_answers.getD i ""))

/-! ## Course generation adapter (server.py lines 137-269) -/

/-- JSON values, the possible results of `json.loads`. -/
inductive Json where
  | null
  | bool (b : Bool)
  | num (n : Int)
  | str (s : String)
  | arr (elems : List Json)
  | obj (fields : List (String × Json))

/-- The `HTTPException` raised by the inner `except Exception` handler
(server.py lines 257-262) when converting the parsed structure fails
(e.g. a present field of the wrong type; the source appends `str(e)`). -/
def processError : HTTPException :=
  { status_code := 500, detail := "Failed to process course content" }

/-- Python `dict.get(key)` on a parsed JSON value: a lookup when the value is a
dict, an `AttributeError` (caught by the `except Exception` handler, hence
`processError`) otherwise. -/
def pyGet : Json → String → Except HTTPException (Option Json)
  | .obj fields, key => .ok ((fields.find? (fun kv => kv.1 == key)).map (fun kv => kv.2))
  | _, _ => .error processError

/-- Model of `d.get(key, dflt)` for a field validated as `str` by the Pydantic model:
the default when the key is missing, the string when present; a present
non-string value fails model validation (`processError`). -/
def getStrD (j : Json) (key dflt : String) : Except HTTPException String :=
  match pyGet j key with
  | .error e => .error e
  | .ok none => .ok dflt
  | .ok (some (.str s)) => .ok s
  | .ok (some _) => .error processError

/-- Model of `d.get(key)` for an `Optional[str]` field: `None` when missing or null. -/
def getStrOpt (j : Json) (key : String) : Except HTTPException (Option String) :=
  match pyGet j key with
  | .error e => .error e
  | .ok none => .ok none
  | .ok (some (.str s)) => .ok (some s)
  | .ok (some .null) => .ok none
  | .ok (some _) => .error processError

/-- Model of `d.get(key, [])` where the result is iterated over: the empty list when the
key is missing, the elements when it holds an array. -/
def getListD (j : Json) (key : String) : Except HTTPException (List Json) :=
  match pyGet j key with
  | .error e => .error e
  | .ok none => .ok []
  | .ok (some (.arr xs)) => .ok xs
  | .ok (some _) => .error processError

/-- Model of `d.get('options', [])` for a `List[str]` field of `Quiz`. -/
def getStrListD (j : Json) (key : String) : Except HTTPException (List String) :=
  match getListD j key with
  | .error e => .error e
  | .ok xs => xs.mapM (fun x => match x with
      | .str s => .ok s
      | _ => .error processError)

/-- Model of `quiz_data.get('explanation', '')` into the `Optional[str]` field. -/
def getExplanation (j : Json) : Except HTTPException (Option String) :=
  match pyGet j "explanation" with
  | .error e => .error e
  | .ok none => .ok (some "")
  | .ok (some (.str s)) => .ok (some s)
  | .ok (some .null) => .ok none
  | .ok (some _) => .error processError

/-- The mock-video synthesis loop (server.py lines 214-220): one `Video` per
string in `video_queries`, with the fixed title template, the search URL with
spaces replaced by `+`, and the static thumbnail. -/
def mkVideos : List Json → Except HTTPException (List Video)
  | [] => .ok []
  | .str query :: rest =>
    match mkVideos rest with
    | .error e => .error e
    | .ok vs => .ok ({ title := "Video: " ++ query,
                       url := "https://www.youtube.com/results?search_query="
                                ++ query.replace " " "+",
                       thumbnail := some "https://img.youtube.com/vi/dQw4w9WgXcQ/maxresdefault.jpg" } :: vs)
  | _ :: _ => .error processError

/-- Conversion of one entry of `course_data['lessons']` (server.py lines 212-228). -/
def convertLesson (idv : String) (lesson_data : Json) : Except HTTPException Lesson :=
  match getListD lesson_data "video_queries" with
  | .error e => .error e
  | .ok queries =>
    match mkVideos queries with
    | .error e => .error e
    | .ok videos =>
      match getStrD lesson_data "title" "Untitled Lesson" with
      | .error e => .error e
      | .ok title =>
        match getStrD lesson_data "content" "" with
        | .error e => .error e
        | .ok content =>
          match getStrOpt lesson_data "code_examples" with
          | .error e => .error e
          | .ok code_examples =>
            .ok { id := idv, title := title, content := content,
                  videos := videos, code_examples := code_examples }

/-- Conversion of one entry of `course_data['quizzes']` (server.py lines 232-239). -/
def convertQuiz (idv : String) (quiz_data : Json) : Except HTTPException Quiz :=
  match getStrD quiz_data "question" "" with
  | .error e => .error e
  | .ok question =>
    match getStrListD quiz_data "options" with
    | .error e => .error e
    | .ok options =>
      match getStrD quiz_data "correct_answer" "" with
      | .error e => .error e
      | .ok correct =>
        match getExplanation quiz_data with
        | .error e => .error e
        | .ok explanation =>
          .ok { id := idv, question := question, options := options,
                correct_answer := correct, explanation := explanation }

/-- The lessons loop, with the id supply `ids` indexed from `k`. -/
def convertLessons (ids : Nat → String) (k : Nat) :
    List Json → Except HTTPException (List Lesson)
  | [] => .ok []
  | j :: rest =>
    match convertLesson (ids k) j with
    | .error e => .error e
    | .ok l =>
      match convertLessons ids (k + 1) rest with
      | .error e => .error e
      | .ok ls => .ok (l :: ls)

/-- The quizzes loop, with the id supply `ids` indexed from `k`. -/
def convertQuizzes (ids : Nat → String) (k : Nat) :
    List Json → Except HTTPException (List Quiz)
  | [] => .ok []
  | j :: rest =>
    match convertQuiz (ids k) j with
    | .error e => .error e
    | .ok q =>
      match convertQuizzes ids (k + 1) rest with
      | .error e => .error e
      | .ok qs => .ok (q :: qs)

/-- The in-memory bundle returned by `generate_course_with_llm`
(server.py lines 243-248). -/
structure GenContent where
  title : String
  description : String
  lessons : List Lesson
  quizzes : List Quiz
deriving DecidableEq, Repr

/-- The conversion of the parsed `course_data` into the bundle
(server.py lines 210-248). Top-level `title`/`description` default to the
topic-derived strings when missing. -/
def convertCourseData (ids : Nat → String) (topic : String) (course_data : Json) :
    Except HTTPException GenContent :=
  match getListD course_data "lessons" with
  | .error e => .error e
  | .ok lessonsJson =>
    match convertLessons ids 0 lessonsJson with
    | .error e => .error e
    | .ok lessons =>
      match getListD course_data "quizzes" with
      | .error e => .error e
      | .ok quizzesJson =>
        match convertQuizzes ids lessonsJson.length quizzesJson with
        | .error e => .error e
        | .ok quizzes =>
          match getStrD course_data "title" ("Course: " ++ topic) with
          | .error e => .error e
          | .ok title =>
            match getStrD course_data "description"
                ("A comprehensive course about " ++ topic) with
            | .error e => .error e
            | .ok description =>
              .ok { title := title, description := description,
                    lessons := lessons, quizzes := quizzes }

/-- The fence-stripping cleanup at server.py lines 192-200: strip whitespace,
drop a leading code-fence marker (with or without the `json` tag), drop a
trailing one, strip again. -/
def stripFences (s : String) : String :=
  let t := s.trim
  let t := if t.startsWith "```json" then t.drop 7 else t
  let t := if t.startsWith "```" then t.drop 3 else t
  let t := if t.endsWith "```" then t.dropRight 3 else t
  t.trim

/-- The outer `except Exception` handler (server.py lines 264-269): every
exception escaping the body — including the `HTTPException`s raised by the
inner handlers — is re-raised as a 500 whose detail wraps `str(e)`. -/
def wrapGenError (e : HTTPException) : HTTPException :=
  { status_code := 500,
    detail := "Failed to generate course: (" ++ toString e.status_code
                ++ ", " ++ e.detail ++ ")" }

/-- The `HTTPException` raised at server.py lines 253-256 when `json.loads`
fails on the cleaned response text. -/
def invalidJsonError : HTTPException :=
  { status_code := 500,
    detail := "Failed to generate course content - invalid JSON response" }

/-- Model of `generate_course_with_llm` (server.py line 137) downstream of the LLM call:
the response text is a parameter, `json.loads` is the parameter `parse`.
Returns the result together with the list of `logger.error` messages emitted
(the `logger.info` messages are omitted). -/
def generate_course_with_llm (parse : String → Option Json) (ids : Nat → String)
    (topic : String) (response : String) :
    Except HTTPException GenContent × List String :=
  let response_text := stripFences response
  match parse response_text with
  | none =>
    (.error (wrapGenError invalidJsonError),
     ["Failed to parse LLM response as JSON: " ++ response,
      "Error generating course: 500: Failed to generate course content - invalid JSON response"])
  | some course_data =>
    match convertCourseData ids topic course_data with
    | .error e => (.error (wrapGenError e), ["Error processing course data"])
    | .ok content => (.ok content, [])

/-- Decidable equality for `Except`, used to evaluate handler results on
concrete inputs. -/
instance {ε : Type} {α : Type} [DecidableEq ε] [DecidableEq α] :
    DecidableEq (Except ε α)
  | .error e, .error f => decidable_of_iff (e = f) (by simp)
  | .error _, .ok _ => isFalse (by simp)
  | .ok _, .error _ => isFalse (by simp)
  | .ok a, .ok b => decidable_of_iff (a = b) (by simp)

/-! ## HTTP endpoints (server.py lines 272-429) -/

/-- The body returned by `register` and `login`: a token plus public user fields. -/
structure AuthResponse where
  token : Token
  user_id : String
  username : String
  email : String
deriving DecidableEq, Repr

/-- Model of `register` (server.py line 272): Conflict (status 400,
"Username already exists") when the username is taken, otherwise insert the
new user (with hashed password) and return a fresh token plus public fields. -/
def register (secret : String) (now : Nat) (salt newId : String)
    (db : DB) (user_data : UserCreate) : Except HTTPException AuthResponse × DB :=
  match db.users.find? (fun u => u.username == user_data.username) with
  | some _ => (.error { status_code := 400, detail := "Username already exists" }, db)
  | none =>
    let user : UserDoc :=
      { id := newId, username := user_data.username, email := user_data.email,
        password_hash := some (hash_password salt user_data.password),
        created_at := now }
    (.ok { token := create_token secret now user.id, user_id := user.id,
           username := user.username, email := user.email },
     { db with users := db.users ++ [user] })

/-- Outcome of the `generate_course` endpoint: the HTTP result, how many times
the external LLM service was invoked, and the error log. -/
structure GenerateOutcome where
  result : Except HTTPException Course
  llmCalls : Nat
  log : List String
deriving DecidableEq, Repr

/-- Model of `generate_course` (server.py line 308): auth check, then the LLM adapter,
then assembly of the `Course` (not persisted — the `DB` passes through
unchanged on every path). -/
def generate_course (secret : String) (now : Nat) (parse : String → Option Json)
    (ids : Nat → String) (courseId : String) (credentials : Option Token)
    (db : DB) (topic : String) (llmResponse : String) : GenerateOutcome × DB :=
  match get_current_user secret now credentials with
  | none =>
    ({ result := .error { status_code := 401, detail := "Authentication required" },
       llmCalls := 0, log := [] }, db)
  | some user_id =>
    let gen := generate_course_with_llm parse ids topic llmResponse
    match gen.1 with
    | .error e => ({ result := .error e, llmCalls := 1, log := gen.2 }, db)
    | .ok content =>
      ({ result := .ok { id := courseId, user_id := user_id, topic := topic,
                         title := content.title, description := content.description,
                         lessons := content.lessons, quizzes := content.quizzes,
                         created_at := now, completion_status := "not_started" },
         llmCalls := 1, log := gen.2 }, db)

/-- The body returned by `save_course`. -/
structure SaveResponse where
  message : String
  course_id : String
deriving DecidableEq, Repr

/-- Model of `save_course` (server.py line 329): auth check, then `insert_one` of the
course document (ownership is NOT checked against the authenticated user). -/
def save_course (secret : String) (now : Nat) (credentials : Option Token)
    (db : DB) (course : Course) : Except HTTPException SaveResponse × DB :=
  match get_current_user secret now credentials with
  | none => (.error { status_code := 401, detail := "Authentication required" }, db)
  | some _ =>
    (.ok { message := "Course saved successfully", course_id := course.id },
     { db with courses := db.courses ++ [course] })

/-- Model of `get_courses` (server.py line 344): auth check, then
`find({"user_id": user_id})`. -/
def get_courses (secret : String) (now : Nat) (credentials : Option Token)
    (db : DB) : Except HTTPException (List Course) × DB :=
  match get_current_user secret now credentials with
  | none => (.error { status_code := 401, detail := "Authentication required" }, db)
  | some user_id => (.ok (db.courses.filter (fun c => c.user_id == user_id)), db)

/-- Model of `get_course` (server.py line 363): auth check, then
`find_one({"id": course_id, "user_id": user_id})`, 404 when absent. -/
def get_course (secret : String) (now : Nat) (credentials : Option Token)
    (db : DB) (course_id : String) : Except HTTPException Course × DB :=
  match get_current_user secret now credentials with
  | none => (.error { status_code := 401, detail := "Authentication required" }, db)
  | some user_id =>
    match db.courses.find? (fun c => c.id == course_id && c.user_id == user_id) with
    | none => (.error { status_code := 404, detail := "Course not found" }, db)
    | some course_doc => (.ok course_doc, db)

/-- The body returned by `submit_quiz`: the `QuizResult` and the percentage. -/
structure SubmitResponse where
  result : QuizResult
  percentage : Rat
deriving DecidableEq, Repr

/-- Model of `submit_quiz` (server.py line 380): auth check; `find_one({"id": course_id})`
(NOT scoped by user), 404 when absent; positional score; append the
`QuizResult` to `quiz_results`; return result and percentage. -/
def submit_quiz (secret : String) (now : Nat) (newId : String)
    (credentials : Option Token) (db : DB) (submission : QuizSubmission) :
    Except HTTPException SubmitResponse × DB :=
  match get_current_user secret now credentials with
  | none => (.error { status_code := 401, detail := "Authentication required" }, db)
  | some user_id =>
    match db.courses.find? (fun c => c.id == submission.course_id) with
    | none => (.error { status_code := 404, detail := "Course not found" }, db)
    | some course_doc =>
      let correct_answers := course_doc.quizzes.map (fun q => q.correct_answer)
      let score := quizScore correct_answers submission.answers
      let result : QuizResult :=
        { id := newId, user_id := user_id, course_id := submission.course_id,
          score := score, total_questions := correct_answers.length,
          answers := submission.answers, correct_answers := correct_answers,
          submitted_at := now }
      (.ok { result := result, percentage := percentageOf score correct_answers },
       { db with quiz_results := db.quiz_results ++ [result] })

/-- Model of `get_quiz_results` (server.py line 413): auth check, then
`find({"course_id": course_id, "user_id": user_id})`. -/
def get_quiz_results (secret : String) (now : Nat) (credentials : Option Token)
    (db : DB) (course_id : String) : Except HTTPException (List QuizResult) × DB :=
  match get_current_user secret now credentials with
  | none => (.error { status_code := 401, detail := "Authentication required" }, db)
  | some user_id =>
    (.ok (db.quiz_results.filter
        (fun r => r.course_id == course_id && r.user_id == user_id)), db)

/-! ## Scoring lemmas -/

/-- Positional match count of two lists paired head-to-head (the truncating
zip of the correct answers with the submitted answers). -/
def pairCount : List String → List String → Nat
  | c :: cs, a :: as => (if a = c then 1 else 0) + pairCount cs as
  | _, _ => 0

theorem pairCount_nil_right (cs : List String) : pairCount cs [] = 0 := by
  cases cs <;> rfl

theorem quizScoreAux_eq_pairCount (answers : List String) :
    ∀ (correct : List String) (i : Nat),
      quizScoreAux correct i answers = pairCount (correct.drop i) answers := by
  induction answers with
  | nil =>
    intro correct i
    simp [quizScoreAux, pairCount_nil_right]
  | cons a as ih =>
    intro correct i
    simp only [quizScoreAux]
    rw [ih correct (i + 1)]
    by_cases hi : i < correct.length
    · rw [List.drop_eq_getElem_cons hi]
      simp only [pairCount]
      have hgetD : correct.getD i "" = correct[i] := by
        rw [List.getD_eq_getElem?_getD, List.getElem?_eq_getElem hi]
        rfl
      simp [hi, hgetD]
    · have hle : correct.length ≤ i := Nat.le_of_not_lt hi
      rw [List.drop_eq_nil_of_le hle,
        List.drop_eq_nil_of_le (le_trans hle (Nat.le_succ i))]
      simp [pairCount, hi]

theorem pairCount_eq_specMatchCount :
    ∀ (correct answers : List String),
      pairCount correct answers = specMatchCount correct answers := by
  intro correct
  induction correct with
  | nil =>
    intro answers
    simp [pairCount, specMatchCount]
  | cons c cs ih =>
    intro answers
    cases answers with
    | nil => simp [pairCount_nil_right, specMatchCount]
    | cons a as =>
      simp only [pairCount, specMatchCount, List.length_cons]
      rw [Nat.succ_min_succ, List.range_succ_eq_map, List.countP_cons,
        List.countP_map]
      simp only [Function.comp_def, List.getD_cons_succ, List.getD_cons_zero]
      rw [← specMatchCount, ← ih as]
      by_cases hac : a = c <;> simp [hac, Nat.add_comm]

/-- The computed score agrees with the spec-side characterisation: the number
of indices below both lengths where the submitted answer equals the stored
correct answer. -/
theorem quizScore_eq_specMatchCount (correct answers : List String) :
    quizScore correct answers = specMatchCount correct answers := by
  rw [quizScore, quizScoreAux_eq_pairCount answers correct 0, List.drop_zero,
    pairCount_eq_specMatchCount]

/-! ## Concrete fixtures for witnesses -/

def exSecret : String := "test-secret"

def exToken : Token := create_token exSecret 1000 "user-1"

def exQuiz (idv answer : String) : Quiz :=
  { id := idv, question := "Q " ++ idv, options := [answer, "other"],
    correct_answer := answer, explanation := none }

/-- A stored course whose quizzes have correct answers `[A, B, C]`. -/
def exCourse : Course :=
  { id := "course-1", user_id := "user-1", topic := "topic",
    title := "Title", description := "Desc", lessons := [],
    quizzes := [exQuiz "q1" "A", exQuiz "q2" "B", exQuiz "q3" "C"],
    created_at := 500 }

/-- A stored course with no quizzes at all. -/
def exEmptyQuizCourse : Course :=
  { id := "course-2", user_id := "user-1", topic := "topic",
    title := "Title2", description := "Desc2", lessons := [],
    quizzes := [], created_at := 600 }

def exDb : DB :=
  { users := [], courses := [exCourse, exEmptyQuizCourse], quiz_results := [] }

def exSubmission : QuizSubmission :=
  { course_id := "course-1", user_id := "user-1", answers := ["A", "X", "C"] }

/-! ## Claims about quiz scoring -/

/-- Claim C1: quiz scoring is positional over the overlapping index range:
whenever the request is authenticated and the course is found, submission
succeeds (no error for a count mismatch), the score is the number of indices
`i` below both lengths with `submittedAnswers[i] = correct_answers[i]`, the
total is the number of quizzes in the course (not the number of submitted
answers), and the percentage is the guarded rounded ratio; in particular
correct answers `[A,B,C]` against submission `[A,X,C]` scores 2 of 3 with
percentage 66.67. -/
theorem submit_quiz_positional_scoring :
    (∀ (secret : String) (now : Nat) (newId : String) (cred : Option Token)
        (db : DB) (submission : QuizSubmission) (uid : String) (course : Course),
      get_current_user secret now cred = some uid →
      db.courses.find? (fun c => c.id == submission.course_id) = some course →
      ∃ resp, (submit_quiz secret now newId cred db submission).1 = .ok resp ∧
        resp.result.score
          = specMatchCount (course.quizzes.map Quiz.correct_answer) submission.answers ∧
        resp.result.total_questions = course.quizzes.length ∧
        resp.percentage
          = percentageOf resp.result.score (course.quizzes.map Quiz.correct_answer))
    ∧ (submit_quiz exSecret 1000 "r-1" (some exToken) exDb exSubmission).1.map
        (fun r => (r.result.score, r.result.total_questions, r.percentage))
        = .ok (2, 3, (6667 : Rat) / 100) := by
  constructor
  · intro secret now newId cred db submission uid course hauth hfind
    simp only [submit_quiz, hauth, hfind]
    refine ⟨_, rfl, ?_, ?_, ?_⟩
    · exact quizScore_eq_specMatchCount _ _
    · exact List.length_map _ _
    · rfl
  · have h1 : (submit_quiz exSecret 1000 "r-1" (some exToken) exDb exSubmission).1.map
        (fun r => (r.result.score, r.result.total_questions, r.percentage))
        = .ok (2, 3, percentageOf 2 ["A", "B", "C"]) := rfl
    have hval : ((2 : Nat) : Rat) / ((3 : Nat) : Rat) * 100 * 100 + 1 / 2
        = 40003 / 6 := by norm_num
    have hfloor : (⌊(40003 : Rat) / 6⌋ : Int) = 6667 := by
      rw [Int.floor_eq_iff]
      norm_num
    have hp : percentageOf 2 ["A", "B", "C"] = (6667 : Rat) / 100 := by
      have hlen : (["A", "B", "C"] : List String).length = 3 := rfl
      rw [percentageOf, if_neg (by simp), round2, hlen, hval, hfloor]
      norm_num
    rw [h1, hp]

/-- Witness for C1: the general part instantiated at the concrete fixture
course (correct answers `[A,B,C]`) and submission `[A,X,C]`. -/
theorem submit_quiz_positional_scoring_witness :
    (∃ resp,
        (submit_quiz exSecret 1000 "r-1" (some exToken) exDb exSubmission).1
          = .ok resp ∧
        resp.result.score
          = specMatchCount (exCourse.quizzes.map Quiz.correct_answer)
              exSubmission.answers ∧
        resp.result.total_questions = exCourse.quizzes.length ∧
        resp.percentage
          = percentageOf resp.result.score
              (exCourse.quizzes.map Quiz.correct_answer))
    ∧ (submit_quiz exSecret 1000 "r-1" (some exToken) exDb exSubmission).1.map
        (fun r => (r.result.score, r.result.total_questions, r.percentage))
        = .ok (2, 3, (6667 : Rat) / 100) :=
  ⟨submit_quiz_positional_scoring.1 exSecret 1000 "r-1" (some exToken) exDb
      exSubmission "user-1" exCourse (by decide) (by decide),
   submit_quiz_positional_scoring.2⟩

/-- Claim C5: for a course with an empty quiz list, scoring any submission
(including a non-empty one) succeeds and returns percentage 0 — the division
is guarded, so `total = 0` never divides by zero. -/
theorem submit_quiz_empty_quizzes_percentage_zero
    (secret : String) (now : Nat) (newId : String) (cred : Option Token)
    (db : DB) (submission : QuizSubmission) (uid : String) (course : Course)
    (hauth : get_current_user secret now cred = some uid)
    (hfind : db.courses.find? (fun c => c.id == submission.course_id) = some course)
    (hempty : course.quizzes = []) :
    ∃ resp, (submit_quiz secret now newId cred db submission).1 = .ok resp ∧
      resp.percentage = 0 := by
  simp only [submit_quiz, hauth, hfind]
  exact ⟨_, rfl, by simp [hempty, percentageOf]⟩

/-- Witness for C5: submitting a non-empty answer list against the stored
course that has no quizzes yields percentage 0. -/
theorem submit_quiz_empty_quizzes_percentage_zero_witness :
    ∃ resp,
      (submit_quiz exSecret 1000 "r-2" (some exToken) exDb
          { course_id := "course-2", user_id := "user-1", answers := ["A"] }).1
        = .ok resp ∧ resp.percentage = 0 :=
  submit_quiz_empty_quizzes_percentage_zero exSecret 1000 "r-2" (some exToken)
    exDb { course_id := "course-2", user_id := "user-1", answers := ["A"] }
    "user-1" exEmptyQuizCourse (by decide) (by decide) (by decide)

/-- Claim C9: quiz submission only appends a `QuizResult` snapshot: on every
path of `submit_quiz` the stored courses (hence each course's
`completion_status`, quizzes and lessons) and users are unchanged, and the
`quiz_results` collection is either unchanged (an error path) or extended by
exactly one appended result. -/
theorem submit_quiz_frame
    (secret : String) (now : Nat) (newId : String) (cred : Option Token)
    (db : DB) (submission : QuizSubmission) :
    (submit_quiz secret now newId cred db submission).2.courses = db.courses
    ∧ (submit_quiz secret now newId cred db submission).2.users = db.users
    ∧ ((submit_quiz secret now newId cred db submission).2.quiz_results
          = db.quiz_results
        ∨ ∃ r, (submit_quiz secret now newId cred db submission).2.quiz_results
          = db.quiz_results ++ [r]) := by
  simp only [submit_quiz]
  cases get_current_user secret now cred with
  | none => simp
  | some uid =>
    cases db.courses.find? (fun c => c.id == submission.course_id) with
    | none => simp
    | some course => exact ⟨rfl, rfl, Or.inr ⟨_, rfl⟩⟩

/-- Claim C10: the persisted `QuizResult` records the token-resolved user as
its `user_id`; the `user_id` field of the request body is ignored, so two
submissions differing only in the body's `user_id` produce identical results
(same persisted state and same returned percentage). -/
theorem submit_quiz_ignores_body_user_id :
    (∀ (secret : String) (now : Nat) (newId : String) (cred : Option Token)
        (db : DB) (cid bodyUid1 bodyUid2 : String) (answers : List String),
      submit_quiz secret now newId cred db
          { course_id := cid, user_id := bodyUid1, answers := answers }
        = submit_quiz secret now newId cred db
            { course_id := cid, user_id := bodyUid2, answers := answers })
    ∧ (∀ (secret : String) (now : Nat) (newId : String) (cred : Option Token)
        (db : DB) (submission : QuizSubmission) (uid : String) (resp : SubmitResponse),
      get_current_user secret now cred = some uid →
      (submit_quiz secret now newId cred db submission).1 = .ok resp →
      resp.result.user_id = uid) := by
  constructor
  · intro secret now newId cred db cid bodyUid1 bodyUid2 answers
    rfl
  · intro secret now newId cred db submission uid resp hauth hok
    simp only [submit_quiz, hauth] at hok
    cases hfind : db.courses.find? (fun c => c.id == submission.course_id) with
    | none => rw [hfind] at hok; simp at hok
    | some course =>
      rw [hfind] at hok
      simp only [Except.ok.injEq] at hok
      rw [← hok]

/-- Witness for C10: two concrete submissions differing only in the body
`user_id` coincide, and the stored result's `user_id` is the token's user. -/
theorem submit_quiz_ignores_body_user_id_witness :
    (submit_quiz exSecret 1000 "r-1" (some exToken) exDb
        { course_id := "course-1", user_id := "user-1", answers := ["A", "X", "C"] }
      = submit_quiz exSecret 1000 "r-1" (some exToken) exDb
          { course_id := "course-1", user_id := "someone-else", answers := ["A", "X", "C"] })
    ∧ ∀ resp,
        (submit_quiz exSecret 1000 "r-1" (some exToken) exDb exSubmission).1
          = .ok resp → resp.result.user_id = "user-1" :=
  ⟨submit_quiz_ignores_body_user_id.1 exSecret 1000 "r-1" (some exToken) exDb
      "course-1" "user-1" "someone-else" ["A", "X", "C"],
   fun resp hok => submit_quiz_ignores_body_user_id.2 exSecret 1000 "r-1"
      (some exToken) exDb exSubmission "user-1" resp (by decide) hok⟩

/-! ## Claims about authentication -/

/-- Claim C2: decoding a token freshly produced by `create_token` resolves to
the same user identifier; an expired token (its `exp` at or before the current
time) or a tampered token (signature not matching the payload under the
secret) resolves to `none` rather than raising. -/
theorem token_roundtrip_and_rejection :
    (∀ (secret uid : String) (now : Nat),
      get_current_user secret now (some (create_token secret now uid)) = some uid)
    ∧ (∀ (secret : String) (now : Nat) (tok : Token),
      tok.payload.exp ≤ now → get_current_user secret now (some tok) = none)
    ∧ (∀ (secret : String) (now : Nat) (tok : Token),
      tok.signature ≠ jwtSign secret tok.payload →
      get_current_user secret now (some tok) = none) := by
  refine ⟨?_, ?_, ?_⟩
  · intro secret uid now
    show (jwtDecode secret now (create_token secret now uid)).map _ = some uid
    rw [show jwtDecode secret now (create_token secret now uid)
        = some { user_id := uid, exp := now + 86400 } from
      if_pos ⟨rfl, Nat.lt_add_of_pos_right (by norm_num)⟩]
    rfl
  · intro secret now tok hexp
    show (jwtDecode secret now tok).map _ = none
    rw [jwtDecode, if_neg (by intro h; exact absurd h.2 (Nat.not_lt.mpr hexp))]
    rfl
  · intro secret now tok hsig
    show (jwtDecode secret now tok).map _ = none
    rw [jwtDecode, if_neg (by intro h; exact hsig h.1)]
    rfl

/-- Witness for C2: the round trip at a concrete secret, user and time; a
concrete expired token; a concrete token with a wrong signature. -/
theorem token_roundtrip_and_rejection_witness :
    get_current_user "s" 77 (some (create_token "s" 77 "bob")) = some "bob"
    ∧ get_current_user "s" 90000
        (some (create_token "s" 0 "bob")) = none
    ∧ get_current_user "s" 77
        (some { payload := { user_id := "bob", exp := 1000000 },
                signature := "forged" }) = none :=
  ⟨token_roundtrip_and_rejection.1 "s" "bob" 77,
   token_roundtrip_and_rejection.2.1 "s" 90000 (create_token "s" 0 "bob")
     (by decide),
   token_roundtrip_and_rejection.2.2 "s" 77
     { payload := { user_id := "bob", exp := 1000000 }, signature := "forged" }
     (by decide)⟩

/-- Claim C4: every protected endpoint (generate, save, list, get course,
submit quiz, get results) invoked with a credential that resolves to no
authenticated user fails with 401, leaves the database untouched, and (for
generation) never invokes the external LLM service. -/
theorem protected_endpoints_unauthorized
    (secret : String) (now : Nat) (parse : String → Option Json)
    (ids : Nat → String) (courseId : String) (cred : Option Token) (db : DB)
    (topic llmResponse newId : String) (course : Course)
    (submission : QuizSubmission)
    (hauth : get_current_user secret now cred = none) :
    ((generate_course secret now parse ids courseId cred db topic llmResponse).1.result
        = .error { status_code := 401, detail := "Authentication required" }
      ∧ (generate_course secret now parse ids courseId cred db topic llmResponse).1.llmCalls
        = 0
      ∧ (generate_course secret now parse ids courseId cred db topic llmResponse).2 = db)
    ∧ save_course secret now cred db course
        = (.error { status_code := 401, detail := "Authentication required" }, db)
    ∧ get_courses secret now cred db
        = (.error { status_code := 401, detail := "Authentication required" }, db)
    ∧ get_course secret now cred db courseId
        = (.error { status_code := 401, detail := "Authentication required" }, db)
    ∧ submit_quiz secret now newId cred db submission
        = (.error { status_code := 401, detail := "Authentication required" }, db)
    ∧ get_quiz_results secret now cred db courseId
        = (.error { status_code := 401, detail := "Authentication required" }, db) := by
  simp [generate_course, save_course, get_courses, get_course, submit_quiz,
    get_quiz_results, hauth]

/-- Witness for C4: all six protected endpoints at a missing credential. -/
theorem protected_endpoints_unauthorized_witness :
    ((generate_course exSecret 1000 (fun _ => none) (fun _ => "id") "c-9" none
        exDb "topic" "resp").1.result
        = .error { status_code := 401, detail := "Authentication required" }
      ∧ (generate_course exSecret 1000 (fun _ => none) (fun _ => "id") "c-9" none
          exDb "topic" "resp").1.llmCalls = 0
      ∧ (generate_course exSecret 1000 (fun _ => none) (fun _ => "id") "c-9" none
          exDb "topic" "resp").2 = exDb)
    ∧ save_course exSecret 1000 none exDb exCourse
        = (.error { status_code := 401, detail := "Authentication required" }, exDb)
    ∧ get_courses exSecret 1000 none exDb
        = (.error { status_code := 401, detail := "Authentication required" }, exDb)
    ∧ get_course exSecret 1000 none exDb "c-9"
        = (.error { status_code := 401, detail := "Authentication required" }, exDb)
    ∧ submit_quiz exSecret 1000 "r-1" none exDb exSubmission
        = (.error { status_code := 401, detail := "Authentication required" }, exDb)
    ∧ get_quiz_results exSecret 1000 none exDb "c-9"
        = (.error { status_code := 401, detail := "Authentication required" }, exDb) :=
  protected_endpoints_unauthorized exSecret 1000 (fun _ => none) (fun _ => "id")
    "c-9" none exDb "topic" "resp" "r-1" exCourse exSubmission rfl

/-- Claim C6: registering a username that already exists fails with the
Conflict error (status 400, "Username already exists") and creates no user;
the first registration of a username inserts exactly the new user and returns
a signed token plus the public user fields. -/
theorem register_conflict_and_success
    (secret : String) (now : Nat) (salt newId : String) (db : DB)
    (user_data : UserCreate) :
    ((∃ u ∈ db.users, u.username = user_data.username) →
      register secret now salt newId db user_data
        = (.error { status_code := 400, detail := "Username already exists" }, db))
    ∧ ((∀ u ∈ db.users, u.username ≠ user_data.username) →
      register secret now salt newId db user_data
        = (.ok { token := create_token secret now newId, user_id := newId,
                 username := user_data.username, email := user_data.email },
           { db with users := db.users ++
              [{ id := newId, username := user_data.username,
                 email := user_data.email,
                 password_hash := some (hash_password salt user_data.password),
                 created_at := now }] })) := by
  constructor
  · rintro ⟨u, hu, hname⟩
    have hsome : (db.users.find? (fun x => x.username == user_data.username)).isSome := by
      rw [List.find?_isSome]
      exact ⟨u, hu, by simp [hname]⟩
    simp only [register]
    cases hfind : db.users.find? (fun x => x.username == user_data.username) with
    | none => rw [hfind] at hsome; simp at hsome
    | some v => rfl
  · intro hnone
    have hfind : db.users.find? (fun x => x.username == user_data.username) = none := by
      rw [List.find?_eq_none]
      intro x hx
      simp [hnone x hx]
    simp only [register, hfind]

/-- Witness for C6: registering `alice` against a database already holding
`alice` yields the Conflict error and leaves the database unchanged;
registering `bob` against the empty-user database inserts exactly one user
and returns the token and public fields. -/
theorem register_conflict_and_success_witness :
    (register exSecret 1000 "salt" "user-9"
        { users := [{ id := "user-1", username := "alice", email := "a@x.com",
                      password_hash := some "h", created_at := 0 }],
          courses := [], quiz_results := [] }
        { username := "alice", email := "a2@x.com", password := "pw" }
      = (.error { status_code := 400, detail := "Username already exists" },
         { users := [{ id := "user-1", username := "alice", email := "a@x.com",
                       password_hash := some "h", created_at := 0 }],
           courses := [], quiz_results := [] }))
    ∧ (register exSecret 1000 "salt" "user-9" exDb
        { username := "bob", email := "b@x.com", password := "pw" }
      = (.ok { token := create_token exSecret 1000 "user-9", user_id := "user-9",
               username := "bob", email := "b@x.com" },
         { exDb with users := exDb.users ++
            [{ id := "user-9", username := "bob", email := "b@x.com",
               password_hash := some (hash_password "salt" "pw"),
               created_at := 1000 }] })) :=
  ⟨(register_conflict_and_success exSecret 1000 "salt" "user-9"
      { users := [{ id := "user-1", username := "alice", email := "a@x.com",
                    password_hash := some "h", created_at := 0 }],
        courses := [], quiz_results := [] }
      { username := "alice", email := "a2@x.com", password := "pw" }).1
    ⟨{ id := "user-1", username := "alice", email := "a@x.com",
       password_hash := some "h", created_at := 0 }, by decide, by decide⟩,
   (register_conflict_and_success exSecret 1000 "salt" "user-9" exDb
      { username := "bob", email := "b@x.com", password := "pw" }).2
    (by intro u hu; simp [exDb] at hu)⟩

/-! ## Claims about the generation adapter -/

/-- Claim C3: when the LLM response text, after fence stripping, is not valid
JSON, generation fails with a 500-class InternalGenerationError, the raw
offending response text is logged, the database is untouched (no course
persisted), and the LLM is invoked exactly once (the failure is not retried). -/
theorem generate_course_invalid_json
    (secret : String) (now : Nat) (parse : String → Option Json)
    (ids : Nat → String) (courseId : String) (cred : Option Token) (db : DB)
    (topic llmResponse : String) (uid : String)
    (hauth : get_current_user secret now cred = some uid)
    (hparse : parse (stripFences llmResponse) = none) :
    (∃ e, (generate_course secret now parse ids courseId cred db topic
        llmResponse).1.result = .error e ∧ e.status_code = 500)
    ∧ (generate_course secret now parse ids courseId cred db topic llmResponse).2 = db
    ∧ (generate_course secret now parse ids courseId cred db topic
        llmResponse).1.llmCalls = 1
    ∧ ("Failed to parse LLM response as JSON: " ++ llmResponse)
        ∈ (generate_course secret now parse ids courseId cred db topic
            llmResponse).1.log := by
  simp only [generate_course, hauth, generate_course_with_llm, hparse]
  exact ⟨⟨_, rfl, rfl⟩, by simp, by simp, by simp⟩

/-- Witness for C3: a parser that rejects everything, on an authenticated
request, yields the 500 error, an untouched database, a single LLM call and
the logged raw text. -/
theorem generate_course_invalid_json_witness :
    (∃ e, (generate_course exSecret 1000 (fun _ => none) (fun _ => "id") "c-9"
        (some exToken) exDb "topic" "not json").1.result = .error e
        ∧ e.status_code = 500)
    ∧ (generate_course exSecret 1000 (fun _ => none) (fun _ => "id") "c-9"
        (some exToken) exDb "topic" "not json").2 = exDb
    ∧ (generate_course exSecret 1000 (fun _ => none) (fun _ => "id") "c-9"
        (some exToken) exDb "topic" "not json").1.llmCalls = 1
    ∧ ("Failed to parse LLM response as JSON: " ++ "not json")
        ∈ (generate_course exSecret 1000 (fun _ => none) (fun _ => "id") "c-9"
            (some exToken) exDb "topic" "not json").1.log :=
  generate_course_invalid_json exSecret 1000 (fun _ => none) (fun _ => "id")
    "c-9" (some exToken) exDb "topic" "not json" "user-1" (by decide) rfl

/-- Model of `dict.get` on an object that does not contain the key returns the default
path (`.ok none`). -/
theorem pyGet_obj_missing (fields : List (String × Json)) (key : String)
    (h : ∀ kv ∈ fields, kv.1 ≠ key) : pyGet (.obj fields) key = .ok none := by
  simp only [pyGet]
  rw [List.find?_eq_none.mpr]
  · rfl
  · intro kv hkv
    simp [h kv hkv]

theorem getStrD_missing (fields : List (String × Json)) (key dflt : String)
    (h : ∀ kv ∈ fields, kv.1 ≠ key) :
    getStrD (.obj fields) key dflt = .ok dflt := by
  simp only [getStrD, pyGet_obj_missing fields key h]

theorem getListD_missing (fields : List (String × Json)) (key : String)
    (h : ∀ kv ∈ fields, kv.1 ≠ key) :
    getListD (.obj fields) key = .ok [] := by
  simp only [getListD, pyGet_obj_missing fields key h]

theorem getStrListD_missing (fields : List (String × Json)) (key : String)
    (h : ∀ kv ∈ fields, kv.1 ≠ key) :
    getStrListD (.obj fields) key = .ok [] := by
  simp only [getStrListD, getListD_missing fields key h]
  rfl

/-- Claim C7: missing fields in a well-formed payload fall back to defaults
instead of failing: a lesson object without `title` converts with title
`Untitled Lesson`, without `content` with empty content, without
`video_queries` with an empty video list; a quiz object without `options`
converts with an empty option list; and entirely empty lesson and quiz
objects still convert successfully to the best-effort defaults. -/
theorem generation_missing_field_defaults :
    (∀ (idv : String) (fields : List (String × Json)) (lesson : Lesson),
      (∀ kv ∈ fields, kv.1 ≠ "title") →
      convertLesson idv (.obj fields) = .ok lesson →
      lesson.title = "Untitled Lesson")
    ∧ (∀ (idv : String) (fields : List (String × Json)) (lesson : Lesson),
      (∀ kv ∈ fields, kv.1 ≠ "content") →
      convertLesson idv (.obj fields) = .ok lesson → lesson.content = "")
    ∧ (∀ (idv : String) (fields : List (String × Json)) (lesson : Lesson),
      (∀ kv ∈ fields, kv.1 ≠ "video_queries") →
      convertLesson idv (.obj fields) = .ok lesson → lesson.videos = [])
    ∧ (∀ (idv : String) (fields : List (String × Json)) (quiz : Quiz),
      (∀ kv ∈ fields, kv.1 ≠ "options") →
      convertQuiz idv (.obj fields) = .ok quiz → quiz.options = [])
    ∧ convertLesson "L1" (.obj [])
        = .ok { id := "L1", title := "Untitled Lesson", content := "",
                videos := [], code_examples := none }
    ∧ convertQuiz "Q1" (.obj [])
        = .ok { id := "Q1", question := "", options := [],
                correct_answer := "", explanation := some "" } := by
  refine ⟨?_, ?_, ?_, ?_, rfl, rfl⟩
  · intro idv fields lesson hmiss hok
    simp only [convertLesson,
      getStrD_missing fields "title" "Untitled Lesson" hmiss] at hok
    cases h1 : getListD (.obj fields) "video_queries" with
    | error e => simp [h1] at hok
    | ok queries =>
      simp only [h1] at hok
      cases h2 : mkVideos queries with
      | error e => simp [h2] at hok
      | ok videos =>
        simp only [h2] at hok
        cases h3 : getStrD (.obj fields) "content" "" with
        | error e => simp [h3] at hok
        | ok content =>
          simp only [h3] at hok
          cases h4 : getStrOpt (.obj fields) "code_examples" with
          | error e => simp [h4] at hok
          | ok ce =>
            simp only [h4, Except.ok.injEq] at hok
            rw [← hok]
  · intro idv fields lesson hmiss hok
    simp only [convertLesson, getStrD_missing fields "content" "" hmiss] at hok
    cases h1 : getListD (.obj fields) "video_queries" with
    | error e => simp [h1] at hok
    | ok queries =>
      simp only [h1] at hok
      cases h2 : mkVideos queries with
      | error e => simp [h2] at hok
      | ok videos =>
        simp only [h2] at hok
        cases h3 : getStrD (.obj fields) "title" "Untitled Lesson" with
        | error e => simp [h3] at hok
        | ok title =>
          simp only [h3] at hok
          cases h4 : getStrOpt (.obj fields) "code_examples" with
          | error e => simp [h4] at hok
          | ok ce =>
            simp only [h4, Except.ok.injEq] at hok
            rw [← hok]
  · intro idv fields lesson hmiss hok
    simp only [convertLesson, getListD_missing fields "video_queries" hmiss,
      mkVideos] at hok
    cases h3 : getStrD (.obj fields) "title" "Untitled Lesson" with
    | error e => simp [h3] at hok
    | ok title =>
      simp only [h3] at hok
      cases h4 : getStrD (.obj fields) "content" "" with
      | error e => simp [h4] at hok
      | ok content =>
        simp only [h4] at hok
        cases h5 : getStrOpt (.obj fields) "code_examples" with
        | error e => simp [h5] at hok
        | ok ce =>
          simp only [h5, Except.ok.injEq] at hok
          rw [← hok]
  · intro idv fields quiz hmiss hok
    simp only [convertQuiz, getStrListD_missing fields "options" hmiss] at hok
    cases h1 : getStrD (.obj fields) "question" "" with
    | error e => simp [h1] at hok
    | ok question =>
      simp only [h1] at hok
      cases h2 : getStrD (.obj fields) "correct_answer" "" with
      | error e => simp [h2] at hok
      | ok correct =>
        simp only [h2] at hok
        cases h3 : getExplanation (.obj fields) with
        | error e => simp [h3] at hok
        | ok explanation =>
          simp only [h3, Except.ok.injEq] at hok
          rw [← hok]

/-- Witness for C7: a lesson object carrying only `content` and a quiz object
carrying only `question` convert with the defaults for the missing fields. -/
theorem generation_missing_field_defaults_witness :
    (∀ lesson : Lesson,
      convertLesson "L1" (.obj [("content", .str "body")]) = .ok lesson →
      lesson.title = "Untitled Lesson")
    ∧ (∀ lesson : Lesson,
      convertLesson "L1" (.obj [("title", .str "T")]) = .ok lesson →
      lesson.content = "")
    ∧ (∀ lesson : Lesson,
      convertLesson "L1" (.obj [("title", .str "T")]) = .ok lesson →
      lesson.videos = [])
    ∧ (∀ quiz : Quiz,
      convertQuiz "Q1" (.obj [("question", .str "q")]) = .ok quiz →
      quiz.options = [])
    ∧ convertLesson "L1" (.obj [])
        = .ok { id := "L1", title := "Untitled Lesson", content := "",
                videos := [], code_examples := none }
    ∧ convertQuiz "Q1" (.obj [])
        = .ok { id := "Q1", question := "", options := [],
                correct_answer := "", explanation := some "" } :=
  ⟨fun lesson => generation_missing_field_defaults.1 "L1"
      [("content", .str "body")] lesson (by decide),
   fun lesson => generation_missing_field_defaults.2.1 "L1"
      [("title", .str "T")] lesson (by decide),
   fun lesson => generation_missing_field_defaults.2.2.1 "L1"
      [("title", .str "T")] lesson (by decide),
   fun quiz => generation_missing_field_defaults.2.2.2.1 "Q1"
      [("question", .str "q")] quiz (by decide),
   generation_missing_field_defaults.2.2.2.2.1,
   generation_missing_field_defaults.2.2.2.2.2⟩

/-! ## Claim about the save/get round trip -/

/-- Claim C8: saving a course whose identifier is fresh and then retrieving it
by that identifier as the owning user returns the same course; retrieving it
as any other authenticated user fails with NotFound (404). -/
theorem save_then_get_roundtrip
    (secret : String) (now : Nat) (credSave credOwner credOther : Option Token)
    (db : DB) (course : Course) (uidSave uidOther : String)
    (hauthSave : get_current_user secret now credSave = some uidSave)
    (hauthOwner : get_current_user secret now credOwner = some course.user_id)
    (hauthOther : get_current_user secret now credOther = some uidOther)
    (hother : uidOther ≠ course.user_id)
    (hfresh : ∀ c ∈ db.courses, c.id ≠ course.id) :
    get_course secret now credOwner (save_course secret now credSave db course).2
        course.id
      = (.ok course, (save_course secret now credSave db course).2)
    ∧ get_course secret now credOther (save_course secret now credSave db course).2
        course.id
      = (.error { status_code := 404, detail := "Course not found" },
         (save_course secret now credSave db course).2) := by
  have hdb : (save_course secret now credSave db course).2
      = { db with courses := db.courses ++ [course] } := by
    simp [save_course, hauthSave]
  rw [hdb]
  have hnoneOwn : List.find?
      (fun c => c.id == course.id && c.user_id == course.user_id) db.courses
      = none := by
    rw [List.find?_eq_none]
    intro c hc
    simp [hfresh c hc]
  have hfound : List.find?
      (fun c => c.id == course.id && c.user_id == course.user_id)
      (db.courses ++ [course]) = some course := by
    rw [List.find?_append, hnoneOwn]
    simp [List.find?]
  have hnoneOther : List.find?
      (fun c => c.id == course.id && c.user_id == uidOther)
      (db.courses ++ [course]) = none := by
    rw [List.find?_eq_none]
    intro c hc
    rcases List.mem_append.mp hc with h | h
    · simp [hfresh c h]
    · rw [List.mem_singleton.mp h]
      simp [Ne.symm hother]
  constructor
  · simp only [get_course, hauthOwner, hfound]
  · simp only [get_course, hauthOther, hnoneOther]

/-- Witness for C8: save a fresh course owned by `user-1` into the fixture
database; `user-1` gets it back, `user-2` gets a 404. -/
theorem save_then_get_roundtrip_witness :
    get_course exSecret 1000 (some exToken)
        (save_course exSecret 1000 (some exToken) exDb
          { id := "course-9", user_id := "user-1", topic := "t", title := "T",
            description := "D", lessons := [], quizzes := [],
            created_at := 900 }).2 "course-9"
      = (.ok { id := "course-9", user_id := "user-1", topic := "t",
               title := "T", description := "D", lessons := [], quizzes := [],
               created_at := 900 },
         (save_course exSecret 1000 (some exToken) exDb
           { id := "course-9", user_id := "user-1", topic := "t", title := "T",
             description := "D", lessons := [], quizzes := [],
             created_at := 900 }).2)
    ∧ get_course exSecret 1000 (some (create_token exSecret 1000 "user-2"))
        (save_course exSecret 1000 (some exToken) exDb
          { id := "course-9", user_id := "user-1", topic := "t", title := "T",
            description := "D", lessons := [], quizzes := [],
            created_at := 900 }).2 "course-9"
      = (.error { status_code := 404, detail := "Course not found" },
         (save_course exSecret 1000 (some exToken) exDb
           { id := "course-9", user_id := "user-1", topic := "t", title := "T",
             description := "D", lessons := [], quizzes := [],
             created_at := 900 }).2) :=
  save_then_get_roundtrip exSecret 1000 (some exToken) (some exToken)
    (some (create_token exSecret 1000 "user-2")) exDb
    { id := "course-9", user_id := "user-1", topic := "t", title := "T",
      description := "D", lessons := [], quizzes := [], created_at := 900 }
    "user-1" "user-2" (by decide) (by decide) (by decide) (by decide)
    (by decide)

end AiCourseBuilder
